import Mathlib

/-!
Shallow embedding of `src/api/index.js` (a Cloudflare Worker relaying file
uploads to catbox.moe / litterbox.catbox.moe) and proofs about it.

Modelling conventions:
* JS strings are Lean `String`s; the JS operations `startsWith`, `trim` and
  `split('/')` are modelled by `jsStartsWith`, `jsTrim` and `String.splitOn`,
  with whitespace modelled by `Char.isWhitespace`.
* JS numbers are exact rationals (`ℚ`); `size / (1024*1024)` is exact in IEEE
  doubles for realistic sizes (division by a power of two), and
  `parseFloat(x.toFixed(2))` is modelled as the exact rational
  `toFixed2Cents size / 100` (round half up to a multiple of 1/100, which is
  what `toFixed` does for these exact inputs).
* Effects are explicit: the results that the ambient runtime would hand back
  (`request.formData()`, `request.json()`, `new URL(...)`, the source fetch,
  the upstream upload response) are fields of `Request`/`Env`, and each
  handler returns its `Response` together with the list of network calls it
  issued, in order.
* A thrown-and-caught JS error is an `Except.error` carrying the message.
-/

namespace CatboxApi

/-- Model of a JSON value (the bodies are built with `JSON.stringify` on
object literals, so field order is kept). -/
inductive Json where
  | jnull : Json
  | jbool : Bool → Json
  | jnum : ℚ → Json
  | jstr : String → Json
  | jarr : List Json → Json
  | jobj : List (String × Json) → Json

/-- Model of js `s.startsWith(p)`. -/
def jsStartsWith (s p : String) : Bool :=
  s.data.take p.data.length == p.data

/-- Model of js `s.trim()`: drop whitespace from both ends. -/
def jsTrim (s : String) : String :=
  String.mk (((s.data.dropWhile Char.isWhitespace).reverse.dropWhile
      Char.isWhitespace).reverse)

/-- Model of js `v || d` for a possibly-absent string: `null`/`undefined` and
the empty string are falsy. -/
def jsOr (v : Option String) (d : String) : String :=
  match v with
  | none => d
  | some s => if s = "" then d else s

/-- Exact value of js `size / (1024 * 1024)`. -/
def fileSizeMB (size : Nat) : ℚ :=
  (size : ℚ) / (1024 * 1024)

/-- Number of hundredths produced by js `(size / (1024*1024)).toFixed(2)`:
round half up (ties pick the larger integer, as `toFixed` specifies). -/
def toFixed2Cents (size : Nat) : Nat :=
  (200 * size + 1048576) / 2097152

/-- Exact value of js `parseFloat((size / (1024*1024)).toFixed(2))`. -/
def size_mb (size : Nat) : ℚ :=
  (toFixed2Cents size : ℚ) / 100

/-- Decimal string produced by js `(size / (1024*1024)).toFixed(2)`. -/
def toFixed2Str (size : Nat) : String :=
  let c := toFixed2Cents size
  toString (c / 100) ++ "." ++ (if c % 100 < 10 then "0" else "") ++
    toString (c % 100)

/-- An inbound `File` value from a multipart form. -/
structure JSFile where
  name : String
  size : Nat
  deriving DecidableEq

/-- What `request.formData()` yields: `get('file')` and `get('time')`. -/
structure InForm where
  file : Option JSFile
  time : Option String
  deriving DecidableEq

/-- Parsed JSON body of a `/upload/url` request; `none` fields are absent
(`undefined`) properties. -/
structure JsonBody where
  url : Option String
  temporary : Option Bool
  time : Option String
  deriving DecidableEq

/-- Result of `new URL(u)` when parsing succeeds. -/
structure URLParts where
  pathname : String
  deriving DecidableEq

/-- Upstream upload response: its HTTP status and the text of its body. -/
structure UpstreamResp where
  status : Nat
  text : String
  deriving DecidableEq

/-- Model of `response.ok`: status in the range 200..299. -/
def respOk (status : Nat) : Bool :=
  200 ≤ status && status < 300

/-- Response to the source `fetch(url)` in the URL-relay handler. -/
structure FetchResp where
  status : Nat
  blobSize : Nat
  contentType : Option String
  deriving DecidableEq

/-- An inbound request together with the oracle results of parsing its body
either way (only the parse the handler actually performs is observed). -/
structure Request where
  method : String
  path : String
  formDataRes : Except String InForm
  jsonRes : Except String JsonBody

/-- Ambient-world oracle: current time, the result of `new URL` on the JSON
body's url, and the two network responses. -/
structure Env where
  nowISO : String
  urlParse : Option URLParts
  sourceFetch : FetchResp
  upstream : UpstreamResp

/-- Outbound multipart form: `reqtype`, optional `time`, and `fileToUpload`. -/
structure OutForm where
  reqtype : String
  time : Option String
  fileName : String
  fileSize : Nat
  fileType : Option String
  deriving DecidableEq

/-- A network call issued by a handler. -/
inductive NetCall where
  | get : String → NetCall
  | post : String → OutForm → NetCall
  deriving DecidableEq

/-- An HTTP response: status, JSON body (`none` is a null body), headers. -/
structure Response where
  status : Nat
  body : Option Json
  headers : List (String × String)

def catboxURL : String := "https://catbox.moe/user/api.php"

def litterboxURL : String := "https://litterbox.catbox.moe/resources/internals/api.php"

/-- The headers object built at the top of `fetch` and passed to every
handler and every response. -/
def corsHeaders : List (String × String) :=
  [("Access-Control-Allow-Origin", "*"),
   ("Access-Control-Allow-Methods", "GET, POST, OPTIONS"),
   ("Access-Control-Allow-Headers", "Content-Type"),
   ("Content-Type", "application/json")]

def errBody (msg : String) : Json :=
  Json.jobj [("error", Json.jstr msg)]

def uploadFailedBody (msg : String) : Json :=
  Json.jobj [("success", Json.jbool false),
             ("error", Json.jstr "Upload failed"),
             ("message", Json.jstr msg)]

def tooLargeBody (size : Nat) : Json :=
  Json.jobj [("error", Json.jstr "File too large"),
             ("max_size", Json.jstr "200MB"),
             ("file_size", Json.jstr (toFixed2Str size ++ "MB"))]

def validTimes : List String := ["1h", "12h", "24h", "72h"]

def invalidTimeBody (t : String) : Json :=
  Json.jobj [("error", Json.jstr "Invalid time parameter"),
             ("valid_times", Json.jarr (validTimes.map Json.jstr)),
             ("provided", Json.jstr t)]

/-- Body served by `handleRoot`. -/
def rootBody : Json :=
  Json.jobj [
    ("message", Json.jstr "Catbox Uploader API - Cloudflare Workers Edition"),
    ("endpoints", Json.jobj [
      ("/upload", Json.jstr "Upload file to catbox.moe (permanent)"),
      ("/upload/temp", Json.jstr "Upload file to litterbox (temporary)"),
      ("/upload/url", Json.jstr "Upload file from URL"),
      ("/health", Json.jstr "Check API status")]),
    ("limits", Json.jobj [
      ("max_file_size", Json.jstr "200MB"),
      ("allowed_methods", Json.jarr [Json.jstr "POST"]),
      ("temp_durations", Json.jarr (validTimes.map Json.jstr))])]

def handleRoot (headers : List (String × String)) : Response :=
  { status := 200, body := some rootBody, headers := headers }

def handleHealth (now : String) (headers : List (String × String)) : Response :=
  { status := 200,
    body := some (Json.jobj [
      ("status", Json.jstr "ok"),
      ("service", Json.jstr "catbox-uploader-worker"),
      ("timestamp", Json.jstr now)]),
    headers := headers }

/-- Embedding of `handleUpload` (direct upload to catbox). -/
def handleUpload (req : Request) (env : Env)
    (headers : List (String × String)) : Response × List NetCall :=
  if req.method ≠ "POST" then
    ({ status := 405, body := some (errBody "Method not allowed"),
       headers := headers }, [])
  else
    match req.formDataRes with
    | Except.error e =>
        ({ status := 500, body := some (uploadFailedBody e),
           headers := headers }, [])
    | Except.ok fd =>
        match fd.file with
        | none =>
            ({ status := 400, body := some (errBody "No file provided"),
               headers := headers }, [])
        | some file =>
            if 200 < fileSizeMB file.size then
              ({ status := 413, body := some (tooLargeBody file.size),
                 headers := headers }, [])
            else
              let call := NetCall.post catboxURL
                { reqtype := "fileupload", time := none,
                  fileName := file.name, fileSize := file.size,
                  fileType := none }
              if respOk env.upstream.status = false then
                ({ status := 500,
                   body := some (uploadFailedBody
                     ("Upload failed with status " ++
                       toString env.upstream.status)),
                   headers := headers }, [call])
              else if jsStartsWith env.upstream.text "https://" then
                ({ status := 200,
                   body := some (Json.jobj [
                     ("success", Json.jbool true),
                     ("url", Json.jstr (jsTrim env.upstream.text)),
                     ("filename", Json.jstr file.name),
                     ("size_mb", Json.jnum (size_mb file.size))]),
                   headers := headers }, [call])
              else
                ({ status := 500,
                   body := some (uploadFailedBody
                     "Invalid response from catbox"),
                   headers := headers }, [call])

/-- Embedding of `handleUploadTemp` (temporary upload to litterbox). -/
def handleUploadTemp (req : Request) (env : Env)
    (headers : List (String × String)) : Response × List NetCall :=
  if req.method ≠ "POST" then
    ({ status := 405, body := some (errBody "Method not allowed"),
       headers := headers }, [])
  else
    match req.formDataRes with
    | Except.error e =>
        ({ status := 500, body := some (uploadFailedBody e),
           headers := headers }, [])
    | Except.ok fd =>
        let time := jsOr fd.time "1h"
        match fd.file with
        | none =>
            ({ status := 400, body := some (errBody "No file provided"),
               headers := headers }, [])
        | some file =>
            if validTimes.contains time = false then
              ({ status := 400, body := some (invalidTimeBody time),
                 headers := headers }, [])
            else if 200 < fileSizeMB file.size then
              ({ status := 413, body := some (tooLargeBody file.size),
                 headers := headers }, [])
            else
              let call := NetCall.post litterboxURL
                { reqtype := "fileupload", time := some time,
                  fileName := file.name, fileSize := file.size,
                  fileType := none }
              if respOk env.upstream.status = false then
                ({ status := 500,
                   body := some (uploadFailedBody
                     ("Upload failed with status " ++
                       toString env.upstream.status)),
                   headers := headers }, [call])
              else if jsStartsWith env.upstream.text "https://" then
                ({ status := 200,
                   body := some (Json.jobj [
                     ("success", Json.jbool true),
                     ("url", Json.jstr (jsTrim env.upstream.text)),
                     ("filename", Json.jstr file.name),
                     ("size_mb", Json.jnum (size_mb file.size)),
                     ("expiration", Json.jstr time),
                     ("temporary", Json.jbool true)]),
                   headers := headers }, [call])
              else
                ({ status := 500,
                   body := some (uploadFailedBody
                     "Invalid response from litterbox"),
                   headers := headers }, [call])

/-- Embedding of `handleUploadFromUrl` (fetch a source URL and relay it). -/
def handleUploadFromUrl (req : Request) (env : Env)
    (headers : List (String × String)) : Response × List NetCall :=
  if req.method ≠ "POST" then
    ({ status := 405, body := some (errBody "Method not allowed"),
       headers := headers }, [])
  else
    match req.jsonRes with
    | Except.error e =>
        ({ status := 500, body := some (uploadFailedBody e),
           headers := headers }, [])
    | Except.ok b =>
        let temporary := b.temporary.getD false
        let time := b.time.getD "1h"
        match b.url with
        | none =>
            ({ status := 400, body := some (errBody "No URL provided"),
               headers := headers }, [])
        | some u =>
            if u = "" then
              ({ status := 400, body := some (errBody "No URL provided"),
                 headers := headers }, [])
            else
              match env.urlParse with
              | none =>
                  ({ status := 400, body := some (errBody "Invalid URL"),
                     headers := headers }, [])
              | some parts =>
                  let getCall := NetCall.get u
                  if respOk env.sourceFetch.status = false then
                    ({ status := 400,
                       body := some (Json.jobj [
                         ("error", Json.jstr "Failed to download file"),
                         ("status", Json.jnum (env.sourceFetch.status : ℚ))]),
                       headers := headers }, [getCall])
                  else
                    let contentType := jsOr env.sourceFetch.contentType
                      "application/octet-stream"
                    let filename := jsOr (parts.pathname.splitOn "/").getLast?
                      "download"
                    if 200 < fileSizeMB env.sourceFetch.blobSize then
                      ({ status := 413,
                         body := some (tooLargeBody env.sourceFetch.blobSize),
                         headers := headers }, [getCall])
                    else
                      let uploadUrl :=
                        if temporary then litterboxURL else catboxURL
                      let postCall := NetCall.post uploadUrl
                        { reqtype := "fileupload",
                          time := if temporary then some time else none,
                          fileName := filename,
                          fileSize := env.sourceFetch.blobSize,
                          fileType := some contentType }
                      if respOk env.upstream.status = false then
                        ({ status := 500,
                           body := some (uploadFailedBody
                             ("Upload failed with status " ++
                               toString env.upstream.status)),
                           headers := headers }, [getCall, postCall])
                      else if jsStartsWith env.upstream.text "https://" then
                        ({ status := 200,
                           body := some (Json.jobj
                             ([("success", Json.jbool true),
                               ("url", Json.jstr (jsTrim env.upstream.text)),
                               ("original_url", Json.jstr u),
                               ("filename", Json.jstr filename),
                               ("size_mb",
                                 Json.jnum (size_mb env.sourceFetch.blobSize))]
                              ++ (if temporary then
                                    [("expiration", Json.jstr time),
                                     ("temporary", Json.jbool true)]
                                  else []))),
                           headers := headers }, [getCall, postCall])
                      else
                        ({ status := 500,
                           body := some (uploadFailedBody
                             "Invalid response from catbox"),
                           headers := headers }, [getCall, postCall])

/-- Embedding of the exported `fetch` entry point: CORS preflight, then the
path router. -/
def worker (req : Request) (env : Env) : Response × List NetCall :=
  if req.method = "OPTIONS" then
    ({ status := 200, body := none, headers := corsHeaders }, [])
  else if req.path = "/" then
    (handleRoot corsHeaders, [])
  else if req.path = "/health" then
    (handleHealth env.nowISO corsHeaders, [])
  else if req.path = "/upload" then
    handleUpload req env corsHeaders
  else if req.path = "/upload/temp" then
    handleUploadTemp req env corsHeaders
  else if req.path = "/upload/url" then
    handleUploadFromUrl req env corsHeaders
  else
    ({ status := 404, body := some (errBody "Not found"),
       headers := corsHeaders }, [])

/-! Concrete requests and environments used by the witness and
counterexample theorems below. -/

def smallFile : JSFile := { name := "a.png", size := 5242880 }

def bigFile : JSFile := { name := "big.bin", size := 220200960 }

def baseEnv : Env :=
  { nowISO := "2024-01-01T00:00:00.000Z", urlParse := none,
    sourceFetch := { status := 200, blobSize := 0, contentType := none },
    upstream := { status := 200, text := "" } }

def fdC1 : InForm := { file := some bigFile, time := some "2h" }

def reqC1 : Request :=
  { method := "POST", path := "/upload/temp",
    formDataRes := Except.ok fdC1, jsonRes := Except.error "unused" }

def envC1 : Env :=
  { baseEnv with
    upstream := { status := 200, text := "https://files.catbox.moe/ok.png" } }

def fdC1w : InForm := { file := some bigFile, time := none }

def reqC1w : Request :=
  { method := "POST", path := "/upload",
    formDataRes := Except.ok fdC1w, jsonRes := Except.error "unused" }

def fdC2 : InForm := { file := some smallFile, time := none }

def reqC2 : Request :=
  { method := "POST", path := "/upload",
    formDataRes := Except.ok fdC2, jsonRes := Except.error "unused" }

def envC2 : Env :=
  { baseEnv with
    upstream := { status := 200, text := "https://files.catbox.moe/abc.png" } }

def fdC3 : InForm := { file := some smallFile, time := some "" }

def reqC3 : Request :=
  { method := "POST", path := "/upload/temp",
    formDataRes := Except.ok fdC3, jsonRes := Except.error "unused" }

def envC3 : Env :=
  { baseEnv with
    upstream := { status := 200, text := "https://litter.catbox.moe/x.png" } }

def fdC3w : InForm := { file := some smallFile, time := some "5h" }

def reqC3w : Request :=
  { method := "POST", path := "/upload/temp",
    formDataRes := Except.ok fdC3w, jsonRes := Except.error "unused" }

def bodyC4 : JsonBody :=
  { url := some "not a url", temporary := none, time := none }

def reqC4 : Request :=
  { method := "POST", path := "/upload/url",
    formDataRes := Except.error "unused", jsonRes := Except.ok bodyC4 }

def fdC5 : InForm := { file := some smallFile, time := none }

def reqC5 : Request :=
  { method := "POST", path := "/upload",
    formDataRes := Except.ok fdC5, jsonRes := Except.error "unused" }

def envC5 : Env :=
  { baseEnv with upstream := { status := 503, text := "" } }

def reqC7 : Request :=
  { method := "OPTIONS", path := "/upload",
    formDataRes := Except.error "unused", jsonRes := Except.error "unused" }

def bodyC8 : JsonBody :=
  { url := some "https://example.com/a.png", temporary := none, time := none }

def reqC8 : Request :=
  { method := "POST", path := "/upload/url",
    formDataRes := Except.error "unused", jsonRes := Except.ok bodyC8 }

def partsC8 : URLParts := { pathname := "/a.png" }

def envC8 : Env :=
  { baseEnv with
    urlParse := some partsC8,
    sourceFetch := { status := 404, blobSize := 0, contentType := none } }

def bodyC9 : JsonBody :=
  { url := some "https://example.com/x.bin", temporary := some true,
    time := some "999h" }

def reqC9 : Request :=
  { method := "POST", path := "/upload/url",
    formDataRes := Except.error "unused", jsonRes := Except.ok bodyC9 }

def partsC9 : URLParts := { pathname := "/x.bin" }

def envC9 : Env :=
  { nowISO := "2024-01-01T00:00:00.000Z",
    urlParse := some partsC9,
    sourceFetch := { status := 200, blobSize := 1024, contentType := some "application/octet-stream" },
    upstream := { status := 200, text := "https://litter.catbox.moe/y.bin" } }

def reqC10 : Request :=
  { method := "POST", path := "/upload",
    formDataRes := Except.error "Unexpected end of input",
    jsonRes := Except.error "Unexpected end of input" }

/-! Helper lemmas. -/

/-- The size gate `200 < size / (1024*1024)` over ℚ is the integer bound
209715200 < size. -/
theorem fileSizeMB_lt_iff (size : Nat) :
    200 < fileSizeMB size ↔ 209715200 < size := by
  rw [fileSizeMB, lt_div_iff₀ (by norm_num)]
  norm_num

/-- Complement of `fileSizeMB_lt_iff`. -/
theorem fileSizeMB_le_iff (size : Nat) :
    fileSizeMB size ≤ 200 ↔ size ≤ 209715200 := by
  rw [fileSizeMB, div_le_iff₀ (by norm_num)]
  norm_num

/-- Dropping leading whitespace from an all-non-whitespace list is the
identity. -/
theorem dropWhile_ws_eq_self {m : List Char}
    (hm : ∀ c ∈ m, c.isWhitespace = false) :
    m.dropWhile Char.isWhitespace = m := by
  cases m with
  | nil => rfl
  | cons a l =>
      rw [List.dropWhile_cons,
        if_neg (by simp [hm a (List.mem_cons_self a l)])]

/-- Trailing-whitespace trimming keeps a non-whitespace leading block. -/
theorem rtrim_take (pre t : List Char)
    (hpre : ∀ c ∈ pre, c.isWhitespace = false) :
    (((pre ++ t).reverse.dropWhile Char.isWhitespace).reverse).take
      pre.length = pre := by
  rw [List.reverse_append, List.dropWhile_append]
  by_cases hE : ((t.reverse.dropWhile Char.isWhitespace).isEmpty : Bool)
  · rw [if_pos hE,
      dropWhile_ws_eq_self (fun c hc => hpre c (List.mem_reverse.mp hc)),
      List.reverse_reverse, List.take_length]
  · rw [if_neg hE, List.reverse_append, List.reverse_reverse,
      List.take_left]

/-- Trimming whitespace from both ends keeps a non-whitespace leading
block that the list begins with. -/
theorem trim_take (pre l : List Char)
    (hpre : ∀ c ∈ pre, c.isWhitespace = false)
    (h : l.take pre.length = pre) :
    (((l.dropWhile Char.isWhitespace).reverse.dropWhile
        Char.isWhitespace).reverse).take pre.length = pre := by
  cases pre with
  | nil => simp
  | cons c pre' =>
      have hl : (c :: pre') ++ l.drop (c :: pre').length = l := by
        conv_rhs => rw [← List.take_append_drop (c :: pre').length l]
        rw [h]
      have hfront : l.dropWhile Char.isWhitespace = l := by
        conv_lhs => rw [← hl]
        rw [List.cons_append, List.dropWhile_cons,
          if_neg (by simp [hpre c (List.mem_cons_self c pre')])]
        rw [← List.cons_append, hl]
      rw [hfront]
      conv_lhs => rw [← hl]
      exact rtrim_take (c :: pre') _ hpre

/-- Characterization of `jsStartsWith` as a take-equation on the data. -/
theorem jsStartsWith_eq (s p : String) :
    jsStartsWith s p = true ↔ s.data.take p.data.length = p.data := by
  simp [jsStartsWith]

/-- Trimming preserves the property of starting with https. -/
theorem jsTrim_keeps_https (s : String)
    (h : jsStartsWith s "https://" = true) :
    jsStartsWith (jsTrim s) "https://" = true := by
  rw [jsStartsWith_eq] at h ⊢
  exact trim_take ("https://".data) s.data (by decide) h

/-- Every branch of `handleUpload` responds with the headers it was given. -/
theorem handleUpload_headers (req : Request) (env : Env)
    (headers : List (String × String)) :
    (handleUpload req env headers).1.headers = headers := by
  dsimp only [handleUpload]
  repeat' split <;> try rfl

/-- Every branch of `handleUploadTemp` responds with the headers it was
given. -/
theorem handleUploadTemp_headers (req : Request) (env : Env)
    (headers : List (String × String)) :
    (handleUploadTemp req env headers).1.headers = headers := by
  dsimp only [handleUploadTemp]
  repeat' split <;> try rfl

/-- Every branch of `handleUploadFromUrl` responds with the headers it was
given. -/
theorem handleUploadFromUrl_headers (req : Request) (env : Env)
    (headers : List (String × String)) :
    (handleUploadFromUrl req env headers).1.headers = headers := by
  dsimp only [handleUploadFromUrl]
  repeat' split <;> try rfl

/-- Every branch of the worker responds with the shared header object. -/
theorem worker_headers (req : Request) (env : Env) :
    (worker req env).1.headers = corsHeaders := by
  dsimp only [worker]
  repeat' split <;> try rfl
  · exact handleUpload_headers req env corsHeaders
  · exact handleUploadTemp_headers req env corsHeaders
  · exact handleUploadFromUrl_headers req env corsHeaders

/-- C6: every response produced by the worker, on every path, method and
outcome, carries the headers Content-Type: application/json and
Access-Control-Allow-Origin: * (indeed the full shared header object). -/
theorem all_responses_have_cors_json_headers :
    ∀ (req : Request) (env : Env),
      ("Content-Type", "application/json") ∈ (worker req env).1.headers ∧
      ("Access-Control-Allow-Origin", "*") ∈ (worker req env).1.headers := by
  intro req env
  rw [worker_headers]
  exact ⟨by simp [corsHeaders], by simp [corsHeaders]⟩

/-- C7: an OPTIONS request, on any path, yields status 200 with a null body
and the shared headers (which contain the three CORS headers), and no
handler runs: no network call is made and the response does not depend on
the path. -/
theorem options_preflight_response :
    ∀ (req : Request) (env : Env), req.method = "OPTIONS" →
      worker req env =
        ({ status := 200, body := none, headers := corsHeaders }, []) ∧
      ("Access-Control-Allow-Origin", "*") ∈ corsHeaders ∧
      ("Access-Control-Allow-Methods", "GET, POST, OPTIONS") ∈ corsHeaders ∧
      ("Access-Control-Allow-Headers", "Content-Type") ∈ corsHeaders := by
  intro req env hm
  refine ⟨?_, by simp [corsHeaders], by simp [corsHeaders],
    by simp [corsHeaders]⟩
  simp [worker, hm]

/-- C7 witness at a concrete OPTIONS request. -/
theorem options_preflight_response_witness :
    worker reqC7 baseEnv =
      ({ status := 200, body := none, headers := corsHeaders }, []) ∧
    ("Access-Control-Allow-Origin", "*") ∈ corsHeaders ∧
    ("Access-Control-Allow-Methods", "GET, POST, OPTIONS") ∈ corsHeaders ∧
    ("Access-Control-Allow-Headers", "Content-Type") ∈ corsHeaders :=
  options_preflight_response reqC7 baseEnv rfl

/-- C2: a POST /upload whose form parses, whose file is present and at most
200 MiB, and whose upstream call answers with an HTTP-success status and a
body starting with https://, is answered with status 200 and the envelope
success / url (trimmed upstream body) / filename / size_mb (two-decimal
rounding), and the url field begins with https://. -/
theorem upload_success_envelope :
    ∀ (req : Request) (env : Env) (fd : InForm) (f : JSFile),
      req.path = "/upload" → req.method = "POST" →
      req.formDataRes = Except.ok fd → fd.file = some f →
      fileSizeMB f.size ≤ 200 →
      respOk env.upstream.status = true →
      jsStartsWith env.upstream.text "https://" = true →
      (worker req env).1.status = 200 ∧
      (worker req env).1.body = some (Json.jobj [
        ("success", Json.jbool true),
        ("url", Json.jstr (jsTrim env.upstream.text)),
        ("filename", Json.jstr f.name),
        ("size_mb", Json.jnum (size_mb f.size))]) ∧
      jsStartsWith (jsTrim env.upstream.text) "https://" = true := by
  intro req env fd f hp hm hfd hf hsize hok hstart
  refine ⟨?_, ?_, jsTrim_keeps_https _ hstart⟩ <;>
    simp [worker, handleUpload, hp, hm, hfd, hf, hok, hstart,
      not_lt.mpr hsize]

/-- C2 witness: a 5 MiB upload relayed successfully. -/
theorem upload_success_envelope_witness :
    (worker reqC2 envC2).1.status = 200 ∧
    (worker reqC2 envC2).1.body = some (Json.jobj [
      ("success", Json.jbool true),
      ("url", Json.jstr (jsTrim "https://files.catbox.moe/abc.png")),
      ("filename", Json.jstr "a.png"),
      ("size_mb", Json.jnum (size_mb 5242880))]) ∧
    jsStartsWith (jsTrim "https://files.catbox.moe/abc.png") "https://"
      = true :=
  upload_success_envelope reqC2 envC2 fdC2 smallFile rfl rfl rfl rfl
    (by simp [fileSizeMB_le_iff, smallFile]) (by decide) (by decide)

/-- C4: a POST /upload/url carrying a url value that the URL parser rejects
is answered with status 400 and no network call at all (when the value is
non-empty the body is the Invalid URL envelope; an empty value is caught by
the earlier falsiness check, still with 400 and no network call). -/
theorem invalid_url_returns_400_before_network :
    ∀ (req : Request) (env : Env) (b : JsonBody) (u : String),
      req.path = "/upload/url" → req.method = "POST" →
      req.jsonRes = Except.ok b → b.url = some u →
      env.urlParse = none →
      (worker req env).1.status = 400 ∧
      (worker req env).2 = [] ∧
      (u ≠ "" →
        (worker req env).1.body = some (errBody "Invalid URL")) := by
  intro req env b u hp hm hj hu hparse
  by_cases he : u = ""
  · refine ⟨?_, ?_, fun hne => absurd he hne⟩ <;>
      simp [worker, handleUploadFromUrl, hp, hm, hj, hu, he]
  · refine ⟨?_, ?_, fun _ => ?_⟩ <;>
      simp [worker, handleUploadFromUrl, hp, hm, hj, hu, he, hparse]

/-- C4 witness: a syntactically invalid source URL. -/
theorem invalid_url_returns_400_before_network_witness :
    (worker reqC4 baseEnv).1.status = 400 ∧
    (worker reqC4 baseEnv).2 = [] ∧
    ("not a url" ≠ "" →
      (worker reqC4 baseEnv).1.body = some (errBody "Invalid URL")) :=
  invalid_url_returns_400_before_network reqC4 baseEnv bodyC4 "not a url"
    rfl rfl rfl rfl rfl

/-- C8: a POST /upload/url with a parseable source URL whose GET answers a
non-2xx status is answered with status 400, a body echoing the source
status, and only the source GET on the wire: no upstream upload call. -/
theorem source_fetch_failure_returns_400 :
    ∀ (req : Request) (env : Env) (b : JsonBody) (u : String)
      (parts : URLParts),
      req.path = "/upload/url" → req.method = "POST" →
      req.jsonRes = Except.ok b → b.url = some u → u ≠ "" →
      env.urlParse = some parts →
      respOk env.sourceFetch.status = false →
      (worker req env).1.status = 400 ∧
      (worker req env).1.body = some (Json.jobj [
        ("error", Json.jstr "Failed to download file"),
        ("status", Json.jnum (env.sourceFetch.status : ℚ))]) ∧
      (worker req env).2 = [NetCall.get u] := by
  intro req env b u parts hp hm hj hu hne hparse hbad
  refine ⟨?_, ?_, ?_⟩ <;>
    simp [worker, handleUploadFromUrl, hp, hm, hj, hu, hne, hparse, hbad]

/-- C8 witness: the source GET answers 404. -/
theorem source_fetch_failure_returns_400_witness :
    (worker reqC8 envC8).1.status = 400 ∧
    (worker reqC8 envC8).1.body = some (Json.jobj [
      ("error", Json.jstr "Failed to download file"),
      ("status", Json.jnum ((404 : Nat) : ℚ))]) ∧
    (worker reqC8 envC8).2 = [NetCall.get "https://example.com/a.png"] :=
  source_fetch_failure_returns_400 reqC8 envC8 bodyC8
    "https://example.com/a.png" partsC8 rfl rfl rfl rfl (by decide) rfl
    (by decide)

/-- C9: the /upload/url handler never validates the time value. With
temporary set to true and an arbitrary time string, once the request
reaches the upload, the time string is sent verbatim in the outbound form
to the litterbox endpoint, and the response status is never 400. -/
theorem upload_url_time_never_validated :
    ∀ (req : Request) (env : Env) (b : JsonBody) (u t : String)
      (parts : URLParts),
      req.path = "/upload/url" → req.method = "POST" →
      req.jsonRes = Except.ok b → b.url = some u → u ≠ "" →
      b.temporary = some true → b.time = some t →
      env.urlParse = some parts →
      respOk env.sourceFetch.status = true →
      fileSizeMB env.sourceFetch.blobSize ≤ 200 →
      (worker req env).2 = [NetCall.get u,
        NetCall.post litterboxURL
          { reqtype := "fileupload", time := some t,
            fileName := jsOr (parts.pathname.splitOn "/").getLast?
              "download",
            fileSize := env.sourceFetch.blobSize,
            fileType := some (jsOr env.sourceFetch.contentType
              "application/octet-stream") }] ∧
      (worker req env).1.status ≠ 400 := by
  intro req env b u t parts hp hm hj hu hne htemp ht hparse hfok hsize
  constructor <;>
    by_cases h1 : respOk env.upstream.status = false <;>
    by_cases h2 : jsStartsWith env.upstream.text "https://" = true <;>
    simp [worker, handleUploadFromUrl, hp, hm, hj, hu, hne, htemp, ht,
      hparse, hfok, not_lt.mpr hsize, h1, h2]

/-- C9 witness: time 999h is relayed verbatim to litterbox. -/
theorem upload_url_time_never_validated_witness :
    (worker reqC9 envC9).2 = [NetCall.get "https://example.com/x.bin",
      NetCall.post litterboxURL
        { reqtype := "fileupload", time := some "999h",
          fileName := jsOr (partsC9.pathname.splitOn "/").getLast?
            "download",
          fileSize := envC9.sourceFetch.blobSize,
          fileType := some (jsOr envC9.sourceFetch.contentType
            "application/octet-stream") }] ∧
    (worker reqC9 envC9).1.status ≠ 400 :=
  upload_url_time_never_validated reqC9 envC9 bodyC9
    "https://example.com/x.bin" "999h" partsC9 rfl rfl rfl rfl (by decide)
    rfl rfl rfl (by decide) (by simp [fileSizeMB_le_iff, envC9])

/-- C10: when the body parse that a handler performs throws — multipart
parsing for /upload and /upload/temp, JSON parsing for /upload/url — the
handler answers 500 with the Upload failed envelope carrying the parse
error message, not a 400, and makes no network call. -/
theorem body_parse_failure_returns_500 :
    (∀ (req : Request) (env : Env) (e : String),
      req.path = "/upload" → req.method = "POST" →
      req.formDataRes = Except.error e →
      (worker req env).1.status = 500 ∧
      (worker req env).1.body = some (uploadFailedBody e) ∧
      (worker req env).2 = []) ∧
    (∀ (req : Request) (env : Env) (e : String),
      req.path = "/upload/temp" → req.method = "POST" →
      req.formDataRes = Except.error e →
      (worker req env).1.status = 500 ∧
      (worker req env).1.body = some (uploadFailedBody e) ∧
      (worker req env).2 = []) ∧
    (∀ (req : Request) (env : Env) (e : String),
      req.path = "/upload/url" → req.method = "POST" →
      req.jsonRes = Except.error e →
      (worker req env).1.status = 500 ∧
      (worker req env).1.body = some (uploadFailedBody e) ∧
      (worker req env).2 = []) := by
  refine ⟨?_, ?_, ?_⟩ <;>
  · intro req env e hp hm herr
    refine ⟨?_, ?_, ?_⟩ <;>
      simp [worker, handleUpload, handleUploadTemp, handleUploadFromUrl,
        hp, hm, herr]

/-- C10 witness: an unparseable multipart body on /upload. -/
theorem body_parse_failure_returns_500_witness :
    (worker reqC10 baseEnv).1.status = 500 ∧
    (worker reqC10 baseEnv).1.body =
      some (uploadFailedBody "Unexpected end of input") ∧
    (worker reqC10 baseEnv).2 = [] :=
  body_parse_failure_returns_500.1 reqC10 baseEnv
    "Unexpected end of input" rfl rfl rfl

/-- C5: on each upload path, once the upstream upload call is reached, a
non-2xx upstream status or a body not starting with https:// yields status
500 with the Upload failed envelope carrying the failure message (the
status message for a non-2xx answer, otherwise the invalid-response
message of that handler). -/
theorem upstream_failure_returns_500 :
    (∀ (req : Request) (env : Env) (fd : InForm) (f : JSFile),
      req.path = "/upload" → req.method = "POST" →
      req.formDataRes = Except.ok fd → fd.file = some f →
      fileSizeMB f.size ≤ 200 →
      (respOk env.upstream.status = false ∨
        jsStartsWith env.upstream.text "https://" = false) →
      (worker req env).1.status = 500 ∧
      (worker req env).1.body = some (uploadFailedBody
        (if respOk env.upstream.status = false then
          "Upload failed with status " ++ toString env.upstream.status
        else "Invalid response from catbox"))) ∧
    (∀ (req : Request) (env : Env) (fd : InForm) (f : JSFile),
      req.path = "/upload/temp" → req.method = "POST" →
      req.formDataRes = Except.ok fd → fd.file = some f →
      validTimes.contains (jsOr fd.time "1h") = true →
      fileSizeMB f.size ≤ 200 →
      (respOk env.upstream.status = false ∨
        jsStartsWith env.upstream.text "https://" = false) →
      (worker req env).1.status = 500 ∧
      (worker req env).1.body = some (uploadFailedBody
        (if respOk env.upstream.status = false then
          "Upload failed with status " ++ toString env.upstream.status
        else "Invalid response from litterbox"))) ∧
    (∀ (req : Request) (env : Env) (b : JsonBody) (u : String)
      (parts : URLParts),
      req.path = "/upload/url" → req.method = "POST" →
      req.jsonRes = Except.ok b → b.url = some u → u ≠ "" →
      env.urlParse = some parts →
      respOk env.sourceFetch.status = true →
      fileSizeMB env.sourceFetch.blobSize ≤ 200 →
      (respOk env.upstream.status = false ∨
        jsStartsWith env.upstream.text "https://" = false) →
      (worker req env).1.status = 500 ∧
      (worker req env).1.body = some (uploadFailedBody
        (if respOk env.upstream.status = false then
          "Upload failed with status " ++ toString env.upstream.status
        else "Invalid response from catbox"))) := by
  refine ⟨?_, ?_, ?_⟩
  · intro req env fd f hp hm hfd hf hsize hfail
    rcases hfail with hbad | hstart
    · exact ⟨by simp [worker, handleUpload, hp, hm, hfd, hf, hbad,
          not_lt.mpr hsize],
        by simp [worker, handleUpload, hp, hm, hfd, hf, hbad,
          not_lt.mpr hsize]⟩
    · by_cases hok : respOk env.upstream.status = false
      · exact ⟨by simp [worker, handleUpload, hp, hm, hfd, hf, hok,
            not_lt.mpr hsize],
          by simp [worker, handleUpload, hp, hm, hfd, hf, hok,
            not_lt.mpr hsize]⟩
      · exact ⟨by simp [worker, handleUpload, hp, hm, hfd, hf, hok,
            hstart, not_lt.mpr hsize],
          by simp [worker, handleUpload, hp, hm, hfd, hf, hok, hstart,
            not_lt.mpr hsize]⟩
  · intro req env fd f hp hm hfd hf hvalid hsize hfail
    have hv : jsOr fd.time "1h" ∈ validTimes := by simpa using hvalid
    rcases hfail with hbad | hstart
    · exact ⟨by simp [worker, handleUploadTemp, hp, hm, hfd, hf, hv,
          hbad, not_lt.mpr hsize],
        by simp [worker, handleUploadTemp, hp, hm, hfd, hf, hv, hbad,
          not_lt.mpr hsize]⟩
    · by_cases hok : respOk env.upstream.status = false
      · exact ⟨by simp [worker, handleUploadTemp, hp, hm, hfd, hf,
            hv, hok, not_lt.mpr hsize],
          by simp [worker, handleUploadTemp, hp, hm, hfd, hf, hv,
            hok, not_lt.mpr hsize]⟩
      · exact ⟨by simp [worker, handleUploadTemp, hp, hm, hfd, hf,
            hv, hok, hstart, not_lt.mpr hsize],
          by simp [worker, handleUploadTemp, hp, hm, hfd, hf, hv,
            hok, hstart, not_lt.mpr hsize]⟩
  · intro req env b u parts hp hm hj hu hne hparse hfok hsize hfail
    rcases hfail with hbad | hstart
    · exact ⟨by simp [worker, handleUploadFromUrl, hp, hm, hj, hu, hne,
          hparse, hfok, hbad, not_lt.mpr hsize],
        by simp [worker, handleUploadFromUrl, hp, hm, hj, hu, hne,
          hparse, hfok, hbad, not_lt.mpr hsize]⟩
    · by_cases hok : respOk env.upstream.status = false
      · exact ⟨by simp [worker, handleUploadFromUrl, hp, hm, hj, hu,
            hne, hparse, hfok, hok, not_lt.mpr hsize],
          by simp [worker, handleUploadFromUrl, hp, hm, hj, hu, hne,
            hparse, hfok, hok, not_lt.mpr hsize]⟩
      · exact ⟨by simp [worker, handleUploadFromUrl, hp, hm, hj, hu,
            hne, hparse, hfok, hok, hstart, not_lt.mpr hsize],
          by simp [worker, handleUploadFromUrl, hp, hm, hj, hu, hne,
            hparse, hfok, hok, hstart, not_lt.mpr hsize]⟩

/-- C5 witness: upstream answers 503 to a direct upload. -/
theorem upstream_failure_returns_500_witness :
    (worker reqC5 envC5).1.status = 500 ∧
    (worker reqC5 envC5).1.body = some (uploadFailedBody
      (if respOk envC5.upstream.status = false then
        "Upload failed with status " ++ toString envC5.upstream.status
      else "Invalid response from catbox")) :=
  upstream_failure_returns_500.1 reqC5 envC5 fdC5 smallFile rfl rfl rfl
    rfl (by simp [fileSizeMB_le_iff, smallFile]) (Or.inl (by decide))

/-- C1 counterexample: a POST /upload/temp with a 210 MiB file and the
invalid time value 2h is answered 400 (the time gate runs before the size
gate), not 413, refuting that every oversize upload request yields 413. -/
theorem oversize_not_always_413_cex :
    200 < fileSizeMB 220200960 ∧
    reqC1.formDataRes = Except.ok
      { file := some { name := "big.bin", size := 220200960 },
        time := some "2h" } ∧
    (worker reqC1 envC1).1.status = 400 ∧
    (worker reqC1 envC1).1.status ≠ 413 := by
  have hc : "2h" ∉ validTimes := by decide
  refine ⟨by simp [fileSizeMB_lt_iff], rfl, ?_, ?_⟩ <;>
    simp [worker, reqC1, envC1, fdC1, bigFile, handleUploadTemp, jsOr, hc]

/-- C1 (amended): a POST upload request on /upload, /upload/temp or
/upload/url that passes the earlier validation gates of its handler (body
parses, file present; valid effective time for /upload/temp; non-empty
parseable url and successful source fetch for /upload/url) and whose file
size in bytes divided by 1048576 exceeds 200 is answered 413, and no
upstream upload call is made (on /upload/url only the source GET has
happened). -/
theorem oversize_upload_returns_413 :
    (∀ (req : Request) (env : Env) (fd : InForm) (f : JSFile),
      req.path = "/upload" → req.method = "POST" →
      req.formDataRes = Except.ok fd → fd.file = some f →
      200 < fileSizeMB f.size →
      (worker req env).1.status = 413 ∧ (worker req env).2 = []) ∧
    (∀ (req : Request) (env : Env) (fd : InForm) (f : JSFile),
      req.path = "/upload/temp" → req.method = "POST" →
      req.formDataRes = Except.ok fd → fd.file = some f →
      validTimes.contains (jsOr fd.time "1h") = true →
      200 < fileSizeMB f.size →
      (worker req env).1.status = 413 ∧ (worker req env).2 = []) ∧
    (∀ (req : Request) (env : Env) (b : JsonBody) (u : String)
      (parts : URLParts),
      req.path = "/upload/url" → req.method = "POST" →
      req.jsonRes = Except.ok b → b.url = some u → u ≠ "" →
      env.urlParse = some parts →
      respOk env.sourceFetch.status = true →
      200 < fileSizeMB env.sourceFetch.blobSize →
      (worker req env).1.status = 413 ∧
      (worker req env).2 = [NetCall.get u]) := by
  refine ⟨?_, ?_, ?_⟩
  · intro req env fd f hp hm hfd hf hsize
    exact ⟨by simp [worker, handleUpload, hp, hm, hfd, hf, hsize],
      by simp [worker, handleUpload, hp, hm, hfd, hf, hsize]⟩
  · intro req env fd f hp hm hfd hf hvalid hsize
    have hv : jsOr fd.time "1h" ∈ validTimes := by simpa using hvalid
    exact ⟨by simp [worker, handleUploadTemp, hp, hm, hfd, hf, hv, hsize],
      by simp [worker, handleUploadTemp, hp, hm, hfd, hf, hv, hsize]⟩
  · intro req env b u parts hp hm hj hu hne hparse hfok hsize
    exact ⟨by simp [worker, handleUploadFromUrl, hp, hm, hj, hu, hne,
        hparse, hfok, hsize],
      by simp [worker, handleUploadFromUrl, hp, hm, hj, hu, hne, hparse,
        hfok, hsize]⟩

/-- C1 (amended) witness: a 210 MiB direct upload is answered 413 with no
network call. -/
theorem oversize_upload_returns_413_witness :
    (worker reqC1w baseEnv).1.status = 413 ∧
    (worker reqC1w baseEnv).2 = [] :=
  oversize_upload_returns_413.1 reqC1w baseEnv fdC1w bigFile rfl rfl rfl
    rfl (by simp [fileSizeMB_lt_iff, bigFile])

/-- C3 counterexample: a POST /upload/temp supplying the time form value
empty-string — a value outside the set 1h/12h/24h/72h — is not answered
400: the falsy value is replaced by the default 1h, the request goes
through, and the upstream call is issued. -/
theorem temp_empty_time_bypasses_validation_cex :
    validTimes.contains "" = false ∧
    reqC3.formDataRes = Except.ok
      { file := some { name := "a.png", size := 5242880 },
        time := some "" } ∧
    (worker reqC3 envC3).1.status = 200 ∧
    (worker reqC3 envC3).2 ≠ [] := by
  have hc : "1h" ∈ validTimes := by decide
  refine ⟨by decide, rfl, ?_, ?_⟩ <;>
    simp [worker, reqC3, envC3, fdC3, smallFile, handleUploadTemp, jsOr,
      hc, respOk, jsStartsWith, fileSizeMB_lt_iff]

/-- C3 (amended): a POST /upload/temp whose form parses and supplies a
non-empty time value outside the set 1h/12h/24h/72h is answered 400 with
no upstream call, and whenever a file is present the body lists the valid
options. -/
theorem temp_invalid_time_returns_400 :
    ∀ (req : Request) (env : Env) (fd : InForm) (t : String),
      req.path = "/upload/temp" → req.method = "POST" →
      req.formDataRes = Except.ok fd → fd.time = some t → t ≠ "" →
      validTimes.contains t = false →
      (worker req env).1.status = 400 ∧
      (worker req env).2 = [] ∧
      (∀ f : JSFile, fd.file = some f →
        (worker req env).1.body = some (invalidTimeBody t)) := by
  intro req env fd t hp hm hfd ht hne hinv
  have hnv : t ∉ validTimes := by simpa using hinv
  have heff : jsOr fd.time "1h" = t := by simp [jsOr, ht, hne]
  rcases hfile : fd.file with _ | f
  · refine ⟨?_, ?_, fun f hf => by simp [hfile] at hf⟩ <;>
      simp [worker, handleUploadTemp, hp, hm, hfd, hfile]
  · refine ⟨?_, ?_, fun f' hf' => ?_⟩ <;>
      simp [worker, handleUploadTemp, hp, hm, hfd, hfile, heff, hnv]

/-- C3 (amended) witness: the invalid time value 5h with a file present. -/
theorem temp_invalid_time_returns_400_witness :
    (worker reqC3w baseEnv).1.status = 400 ∧
    (worker reqC3w baseEnv).2 = [] ∧
    (∀ f : JSFile, fdC3w.file = some f →
      (worker reqC3w baseEnv).1.body = some (invalidTimeBody "5h")) :=
  temp_invalid_time_returns_400 reqC3w baseEnv fdC3w "5h" rfl rfl rfl rfl
    (by decide) (by decide)

end CatboxApi
